import Mathlib

/-!
Verification of the multi-engine PDF extraction orchestrator of
fastapi-doc-analyze-lite against its specification.

The development shallowly embeds the Python sources:
  - app/models/pdf_model.py        (data model)
  - app/tasks/celery_tasks.py      (wait_for_celery_task)
  - app/tasks/pdf_tasks.py         (process_with_fallbacks, _process_pdf, process_pdf)
  - app/services/processors/pdf/muPDF.py     (_usePyMuPDF)
  - app/services/processors/pdf/tesseract.py (extract_text_and_boxes, _useTesseract)
  - app/services/processors/pdf/textract.py  (process_result, _useTextract)

Conventions of the embedding:
  - Python floats that only ever hold integral values here (coordinates,
    confidences) are modelled as Int.
  - Python str.strip is modelled by pyStrip, a structurally recursive
    function that removes leading and trailing whitespace; Python
    str.split with a one-character separator is modelled by pySplitChar.
  - Exceptions are modelled with Except PyError; a try/except block
    becomes a match on the Except value.
  - A value that Python code passes around as a dict or a list of dicts
    is modelled by EnginePayload: the payload of a resolved engine job is
    either one response dict (EnginePayload.dict) or a list of response
    dicts (EnginePayload.list, what the textract adapter produces).
  - The celery background job of one engine invocation is modelled by
    CeleryJob: the poll time at which the job becomes ready (none when it
    never resolves) together with its outcome.  Real time is discretised
    to the 1-second polling ticks of wait_for_celery_task.
  - The while loop of wait_for_celery_task is embedded with explicit
    fuel (waitPollAux); calling it with fuel of timeout + 2 is enough for
    the loop to reach its own timeout branch, so the fuel never runs out
    before the loop itself decides.
-/

namespace DocAnalyze

/-! ## Python string primitives -/

/-- Model of Python str.strip(): drop leading and trailing whitespace. -/
def pyStrip (s : String) : String :=
  String.mk (((s.data.dropWhile Char.isWhitespace).reverse.dropWhile Char.isWhitespace).reverse)

/-- Helper for pySplitChar: split a character list at every occurrence of c. -/
def splitCharAux (c : Char) : List Char → List Char → List (List Char)
  | [], acc => [acc.reverse]
  | x :: xs, acc =>
    if x == c then acc.reverse :: splitCharAux c xs []
    else splitCharAux c xs (x :: acc)

/-- Model of Python str.split(sep) for a one-character separator. -/
def pySplitChar (c : Char) (s : String) : List String :=
  (splitCharAux c s.data []).map String.mk

/-! ## Data model: app/models/pdf_model.py -/

/-- Model of the coordinates pydantic model (floats modelled as Int). -/
structure Coordinates where
  left : Int
  top : Int
  width : Int
  height : Int
deriving Repr, DecidableEq

/-- Model of the BoundingBox pydantic model. -/
structure BoundingBox where
  page : Int
  bbox : Coordinates
  text : String
  confidence : Int
deriving Repr, DecidableEq

/-- Model of the PDFTextResponse pydantic model. -/
structure PDFTextResponse where
  file_name : String
  text : String
  bounding_boxes : List BoundingBox
deriving Repr, DecidableEq

/-- The Python exceptions that the orchestrator code can raise or absorb. -/
inductive PyError where
  | typeError
  | timeoutError
  | unboundLocal
  | exc (msg : String)
deriving Repr, DecidableEq

/-- The value a resolved engine job hands to the controller: either one
response dict (PDFTextResponse.to_dict()) or a list of such dicts, which
is what the textract adapter returns. -/
inductive EnginePayload where
  | dict (resp : PDFTextResponse)
  | list (resps : List PDFTextResponse)
deriving Repr, DecidableEq

/-- Model of PDFTextResponse.to_dict(): the record itself stands for the
dict, wrapped into the payload universe. -/
def PDFTextResponse.to_dict (r : PDFTextResponse) : EnginePayload := .dict r

/-- Model of the controller expression response["bounding_boxes"]
(pdf_tasks.py line 72): subscripting a dict with the string key succeeds,
subscripting a list with a string key raises TypeError. -/
def getItem_bounding_boxes : EnginePayload → Except PyError (List BoundingBox)
  | .dict r => .ok r.bounding_boxes
  | .list _ => .error .typeError

instance {ε α : Type} [DecidableEq ε] [DecidableEq α] : DecidableEq (Except ε α) := fun a b =>
  match a, b with
  | .ok x, .ok y =>
    match decEq x y with
    | isTrue h => isTrue (by rw [h])
    | isFalse h => isFalse (by intro hh; cases hh; exact h rfl)
  | .error x, .error y =>
    match decEq x y with
    | isTrue h => isTrue (by rw [h])
    | isFalse h => isFalse (by intro hh; cases hh; exact h rfl)
  | .ok _, .error _ => isFalse (by intro hh; cases hh)
  | .error _, .ok _ => isFalse (by intro hh; cases hh)

/-! ## Job submission and wait facility: app/tasks/celery_tasks.py -/

/-- One in-flight celery job (AsyncResult): the poll tick at which it
becomes ready (none when it never resolves), and its outcome, which is
either the task result or the exception the task raised (task.failed()). -/
structure CeleryJob where
  readyAt : Option Nat
  result : Except PyError EnginePayload

/-- Model of task.ready() at poll tick t. -/
def CeleryJob.ready (j : CeleryJob) (t : Nat) : Bool :=
  match j.readyAt with
  | some r => decide (r ≤ t)
  | none => false

/-- The while loop of wait_for_celery_task (celery_tasks.py lines 30-34):
at each 1-second tick t it first checks task.ready(), then raises
TimeoutError when the elapsed time exceeds the timeout, else sleeps one
second.  fuel bounds the recursion; fuel = timeout + 2 - t suffices for
the loop to reach its own timeout branch. -/
def waitPollAux (ready : Nat → Bool) (timeout : Nat) : Nat → Nat → Except PyError Nat
  | _, 0 => .error .timeoutError
  | t, fuel + 1 =>
    if ready t then .ok t
    else if t > timeout then .error .timeoutError
    else waitPollAux ready timeout (t + 1) fuel

/-- Model of wait_for_celery_task(task_id, timeout) (celery_tasks.py lines
26-48): poll until ready or timeout; on ready, return task.result, or
re-raise it when the task failed.  All raised exceptions propagate to the
caller (the except clauses log and re-raise). -/
def wait_for_celery_task (job : CeleryJob) (timeout : Nat) : Except PyError EnginePayload :=
  match waitPollAux job.ready timeout 0 (timeout + 2) with
  | .ok _ => job.result
  | .error e => .error e

/-! ## Fallback controller: app/tasks/pdf_tasks.py -/

/-- One entry of settings.PDF_PROCESSOR_PRIORITIZATION after the
dynamic-import step of _process_pdf: the descriptor name and parallel flag from
the table, whether the dotted-path import succeeds and yields a callable,
and the behaviour of the engine as a function of the document path (the
celery job that processor_func.delay(file_path) enqueues). -/
structure Processor where
  name : String
  parallel : Bool
  importable : Bool
  callable : Bool
  job : String → CeleryJob

/-- The body of one iteration of the process_with_fallbacks loop
(pdf_tasks.py lines 57-77): skip non-callable processors, enqueue the
job, await it, and accept the response exactly when
response["bounding_boxes"] is truthy (non-empty).  Returns some accepted
response, or none when this engine is skipped: a raised failure, a
timeout, a TypeError from subscripting, and an empty bounding-box list
are all absorbed identically. -/
def attempt (file_path : String) (timeout : Nat) (p : Processor) : Option EnginePayload :=
  if p.callable then
    match wait_for_celery_task (p.job file_path) timeout with
    | .ok resp =>
      match getItem_bounding_boxes resp with
      | .ok boxes => if boxes.isEmpty then none else some resp
      | .error _ => none
    | .error _ => none
  else none

/-- Model of process_with_fallbacks (pdf_tasks.py lines 46-89), paired
with the ordered list of processor names the loop visits (the trace of
attempts).  The loop returns the first accepted response; when the list
is exhausted it returns the empty sentinel
PDFTextResponse(file_name=file_path, text="", bounding_boxes=[]).to_dict(). -/
def process_with_fallbacks_run (file_path : String) (timeout : Nat) :
    List Processor → EnginePayload × List String
  | [] => ((PDFTextResponse.mk file_path "" []).to_dict, [])
  | p :: rest =>
    match attempt file_path timeout p with
    | some resp => (resp, [p.name])
    | none =>
      let r := process_with_fallbacks_run file_path timeout rest
      (r.1, p.name :: r.2)

/-- The value process_with_fallbacks returns (first component of the run). -/
def process_with_fallbacks (file_path : String) (timeout : Nat) (ps : List Processor) :
    EnginePayload :=
  (process_with_fallbacks_run file_path timeout ps).1

/-- The body of the try block of _process_pdf (pdf_tasks.py lines
125-184).  The loading loop keeps the importable, callable descriptors
and splits them into parallel_processors and processors in table order.
The parallel phase awaits process_with_fallbacks on each parallel
processor one at a time and discards every result (the bare list
comprehension on line 167).  The local variable response is assigned only
in the sequential phase (line 181, guarded by "if processors:"); reading
it unassigned at line 183 raises UnboundLocalError. -/
def _process_pdf_body (temp_path : String) (timeout : Nat) (table : List Processor) :
    Except PyError EnginePayload :=
  let _discarded := ((table.filter (fun p => p.importable && p.callable)).filter
    (fun p => p.parallel)).map (fun p => process_with_fallbacks temp_path timeout [p])
  match (table.filter (fun p => p.importable && p.callable)).filter (fun p => !p.parallel) with
  | [] => .error .unboundLocal
  | q :: qs => .ok (process_with_fallbacks temp_path timeout (q :: qs))

/-- Model of _process_pdf: its catch-all except clause turns any raised
exception into PDFTextResponse(file_name="", text="", bounding_boxes=[]).to_dict()
(pdf_tasks.py lines 186-188). -/
def _process_pdf (temp_path : String) (timeout : Nat) (table : List Processor) :
    EnginePayload :=
  match _process_pdf_body temp_path timeout table with
  | .ok r => r
  | .error _ => (PDFTextResponse.mk "" "" []).to_dict

/-- The body of the try block of process_pdf (pdf_tasks.py lines 36-41):
run _process_pdf, then raise when results["bounding_boxes"] is falsy
(empty), else return the results. -/
def process_pdf_body (temp_path : String) (timeout : Nat) (table : List Processor) :
    Except PyError EnginePayload :=
  let results := _process_pdf temp_path timeout table
  match getItem_bounding_boxes results with
  | .ok boxes =>
    if boxes.isEmpty then .error (.exc "PDF processing failed") else .ok results
  | .error e => .error e

/-- Model of process_pdf, the celery entry point (pdf_tasks.py lines
25-44): its except clause absorbs every exception and returns
PDFTextResponse(file_name=temp_path, text="", bounding_boxes=[]).to_dict(). -/
def process_pdf (temp_path : String) (timeout : Nat) (table : List Processor) :
    EnginePayload :=
  match process_pdf_body temp_path timeout table with
  | .ok r => r
  | .error _ => (PDFTextResponse.mk temp_path "" []).to_dict

/-! ## PyMuPDF adapter: app/services/processors/pdf/muPDF.py -/

/-- One line dict of a PyMuPDF text block, as the adapter reads it
(line["text"]). -/
structure FitzLine where
  text : String
deriving Repr, DecidableEq

/-- One block dict of page.get_text("dict")["blocks"]: the block type,
the four bbox floats (modelled as Int) and the line dicts. -/
structure FitzBlock where
  btype : Int
  x0 : Int
  y0 : Int
  x1 : Int
  y1 : Int
  lines : List FitzLine
deriving Repr, DecidableEq

/-- The BoundingBox _usePyMuPDF builds for one text block (muPDF.py lines
51-62): joined line texts stripped, width and height from bbox
differences, fixed confidence 100. -/
def muPDF_box (page_number : Int) (block : FitzBlock) : BoundingBox :=
  { page := page_number
    bbox := { left := block.x0, top := block.y0,
              width := block.x1 - block.x0, height := block.y1 - block.y0 }
    text := pyStrip (String.join (block.lines.map (fun l => l.text)))
    confidence := 100 }

/-- The text_and_boxes list _usePyMuPDF accumulates over the document
(muPDF.py lines 47-63): pages enumerated from 1, keeping blocks of type 0. -/
def muPDF_boxes (doc : List (List FitzBlock)) : List BoundingBox :=
  (doc.enum.map (fun pb =>
    (pb.2.filter (fun b => b.btype == 0)).map (muPDF_box ((pb.1 : Int) + 1)))).flatten

/-- The success path of _usePyMuPDF (muPDF.py lines 42-70), with the
opened document as input: file_name is the file_path argument, text the
newline-join of the block texts, bounding_boxes the accumulated list. -/
def _usePyMuPDF (file_path : String) (doc : List (List FitzBlock)) : PDFTextResponse :=
  { file_name := file_path
    text := String.intercalate "\n" ((muPDF_boxes doc).map (fun b => b.text))
    bounding_boxes := muPDF_boxes doc }

/-! ## Tesseract adapter: app/services/processors/pdf/tesseract.py -/

/-- One recognised token of pytesseract.image_to_data output: the
parallel arrays at one index i.  conf is the reported confidence as the
adapter reads it with int() (tesseract.py line 117). -/
structure OcrToken where
  page_num : Int
  left : Int
  top : Int
  width : Int
  height : Int
  text : String
  conf : Int
deriving Repr, DecidableEq

/-- The BoundingBox extract_text_and_boxes builds for one kept token
(tesseract.py lines 107-116): the stripped token text and the per-token
confidence. -/
def ocr_box (t : OcrToken) : BoundingBox :=
  { page := t.page_num
    bbox := { left := t.left, top := t.top, width := t.width, height := t.height }
    text := pyStrip t.text
    confidence := t.conf }

/-- Model of extract_text_and_boxes (tesseract.py lines 100-122): none is
a failed preprocessing (image is None); otherwise keep exactly the tokens
with int(conf) > 60 and non-empty stripped text (line 117). -/
def extract_text_and_boxes : Option (List OcrToken) → List BoundingBox
  | none => []
  | some d =>
    (d.filter (fun t => decide (60 < t.conf) && !(pyStrip t.text == ""))).map ocr_box

/-- The success path of _useTesseract (tesseract.py lines 60-68), with
the per-page OCR outputs as input: flatten the per-page box lists, join
the texts with newlines, file_name is the file_path argument. -/
def _useTesseract (file_path : String) (images : List (Option (List OcrToken))) :
    PDFTextResponse :=
  let results := images.map extract_text_and_boxes
  { file_name := file_path
    text := String.intercalate "\n" (results.flatten.map (fun b => b.text))
    bounding_boxes := results.flatten }

/-! ## Textract adapter: app/services/processors/pdf/textract.py -/

/-- One block of a Textract response (the fields the adapter reads). -/
structure TextractBlock where
  BlockType : String
  Text : String
  Page : Option Int
  left : Int
  top : Int
  width : Int
  height : Int
  Confidence : Int
deriving Repr, DecidableEq

/-- One Textract get_document_text_detection response. -/
structure TextractResult where
  Blocks : List TextractBlock
deriving Repr, DecidableEq

/-- Model of extract_text (textract.py lines 170-185): newline-join the
Text of the LINE blocks. -/
def extract_text (result : TextractResult) : String :=
  String.intercalate "\n"
    ((result.Blocks.filter (fun b => b.BlockType == "LINE")).map (fun b => b.Text))

/-- Model of extract_bounding_boxes (textract.py lines 187-214): one
BoundingBox per LINE block, page defaulting to 1. -/
def extract_bounding_boxes (result : TextractResult) : List BoundingBox :=
  (result.Blocks.filter (fun b => b.BlockType == "LINE")).map (fun b =>
    { page := b.Page.getD 1
      bbox := { left := b.left, top := b.top, width := b.width, height := b.height }
      text := b.Text
      confidence := b.Confidence })

/-- Model of process_result (textract.py lines 149-168): the cleaned file
name drops everything up to the first underscore of the S3 key. -/
def process_result (result : TextractResult) (doc_name : String) : PDFTextResponse :=
  { file_name := String.intercalate "_" ((pySplitChar '_' doc_name).drop 1)
    text := extract_text result
    bounding_boxes := extract_bounding_boxes result }

/-- Model of _useTextract (textract.py lines 32-63): on success it zips
the Textract results with the single uploaded document and returns the
LIST of processed response dicts; its catch-all except clause returns the
empty list.  Either way the value handed back to the controller is a
list, never a single response dict. -/
def _useTextract (_file_path : String) (s3_file_key : String)
    (service : Except PyError (List TextractResult)) : EnginePayload :=
  match service with
  | .ok results =>
    .list ((results.zip [s3_file_key]).map (fun rd => process_result rd.1 rd.2))
  | .error _ => .list []

/-! ## Definitions modelled from the spec (for refinement comparison) -/

/-- Modelled from the spec: the base name of a document path, the final
component after the last slash ("set fileName from the input document
path's base name", spec section 4.4).  The repository has no code that
computes a base name; this definition follows the spec wording, to be
compared with what the adapters actually store in file_name. -/
def specBaseName (path : String) : String :=
  String.mk ((path.data.reverse.takeWhile (fun c => !(c == '/'))).reverse)

/-! ## Concrete engines and documents for the scenario theorems

These instantiate the concrete scenario of spec section 8: a fast
parallel engine that succeeds with 2 blocks, a parallel engine that
raises, and a sequential cloud OCR engine that succeeds with 5 blocks;
plus a failing, an empty-returning, a never-resolving and a succeeding
sequential engine. -/

/-- The 2-block response of the fast parallel engine. -/
def fastResp : PDFTextResponse :=
  { file_name := "/tmp/doc.pdf", text := "alpha\nbeta",
    bounding_boxes :=
      [ { page := 1, bbox := ⟨0, 0, 10, 10⟩, text := "alpha", confidence := 100 },
        { page := 1, bbox := ⟨0, 10, 10, 10⟩, text := "beta", confidence := 100 } ] }

/-- The 5-block response of the sequential cloud OCR engine. -/
def cloudResp : PDFTextResponse :=
  { file_name := "/tmp/doc.pdf", text := "l1\nl2\nl3\nl4\nl5",
    bounding_boxes :=
      [ { page := 1, bbox := ⟨0, 0, 10, 2⟩, text := "l1", confidence := 99 },
        { page := 1, bbox := ⟨0, 2, 10, 2⟩, text := "l2", confidence := 99 },
        { page := 1, bbox := ⟨0, 4, 10, 2⟩, text := "l3", confidence := 99 },
        { page := 1, bbox := ⟨0, 6, 10, 2⟩, text := "l4", confidence := 99 },
        { page := 1, bbox := ⟨0, 8, 10, 2⟩, text := "l5", confidence := 99 } ] }

/-- The 1-block response of the succeeding sequential engine. -/
def okResp : PDFTextResponse :=
  { file_name := "/tmp/doc.pdf", text := "gamma",
    bounding_boxes := [ { page := 1, bbox := ⟨0, 0, 5, 5⟩, text := "gamma", confidence := 100 } ] }

/-- Parallel engine, resolves at tick 0 with the non-empty fastResp. -/
def fastEngine : Processor :=
  { name := "fastEngine", parallel := true, importable := true, callable := true,
    job := fun _ => { readyAt := some 0, result := .ok fastResp.to_dict } }

/-- Parallel engine, resolves at tick 0 by raising. -/
def layoutEngine : Processor :=
  { name := "layoutEngine", parallel := true, importable := true, callable := true,
    job := fun _ => { readyAt := some 0, result := .error (.exc "engine raised") } }

/-- Sequential cloud OCR engine, resolves at tick 0 with the non-empty cloudResp. -/
def cloudOCR : Processor :=
  { name := "cloudOCR", parallel := false, importable := true, callable := true,
    job := fun _ => { readyAt := some 0, result := .ok cloudResp.to_dict } }

/-- Sequential engine whose invocation raises. -/
def failEngine : Processor :=
  { name := "failEngine", parallel := false, importable := true, callable := true,
    job := fun _ => { readyAt := some 0, result := .error (.exc "engine raised") } }

/-- Sequential engine that succeeds but returns zero bounding boxes. -/
def emptyEngine : Processor :=
  { name := "emptyEngine", parallel := false, importable := true, callable := true,
    job := fun _ => { readyAt := some 0,
                      result := .ok (PDFTextResponse.mk "/tmp/doc.pdf" "" []).to_dict } }

/-- Sequential engine whose job never resolves. -/
def hangEngine : Processor :=
  { name := "hangEngine", parallel := false, importable := true, callable := true,
    job := fun _ => { readyAt := none, result := .error (.exc "never seen") } }

/-- Sequential engine that succeeds with the non-empty okResp. -/
def okEngine : Processor :=
  { name := "okEngine", parallel := false, importable := true, callable := true,
    job := fun _ => { readyAt := some 0, result := .ok okResp.to_dict } }

/-- The confidence cutoff of the tesseract token filter: the source keeps
tokens with int(conf) > 60 (tesseract.py line 117), i.e. integer
confidence at least 61; tokens with confidence below 61 are dropped. -/
def confCutoff : Int := 61

/-- A successful textract service outcome with one LINE block. -/
def textractSvc : Except PyError (List TextractResult) :=
  .ok [ { Blocks := [ { BlockType := "LINE", Text := "hello", Page := some 1,
                        left := 0, top := 0, width := 4, height := 1,
                        Confidence := 99 } ] } ]

/-- Sequential engine backed by the textract adapter on textractSvc. -/
def textractEngine : Processor :=
  { name := "textract", parallel := false, importable := true, callable := true,
    job := fun fp => { readyAt := some 0,
                       result := .ok (_useTextract fp "123_doc.pdf" textractSvc) } }

/-- A PyMuPDF document with one whitespace-only text block and one
ordinary text block. -/
def blankBlockDoc : List (List FitzBlock) :=
  [ [ { btype := 0, x0 := 0, y0 := 0, x1 := 4, y1 := 5, lines := [{ text := " " }] },
      { btype := 0, x0 := 0, y0 := 5, x1 := 4, y1 := 9, lines := [{ text := "hi" }] } ] ]

/-! ## Helper lemmas -/

/-- If the job is not ready at any poll tick up to timeout + 1, the poll
loop raises TimeoutError, for any amount of fuel. -/
theorem waitPollAux_timeout (ready : Nat → Bool) (tmo : Nat)
    (h : ∀ s, s ≤ tmo + 1 → ready s = false) :
    ∀ fuel t, t ≤ tmo + 1 → waitPollAux ready tmo t fuel = .error .timeoutError := by
  intro fuel
  induction fuel with
  | zero => intro t _; rfl
  | succ n ih =>
    intro t ht
    by_cases hto : t > tmo
    · simp [waitPollAux, h t ht, hto]
    · simp only [waitPollAux, h t ht, Bool.false_eq_true, if_false, hto, ite_false]
      exact ih (t + 1) (by omega)

/-- A job that never resolves, or resolves only after tick timeout + 1,
makes wait_for_celery_task raise TimeoutError. -/
theorem wait_timeout (job : CeleryJob) (tmo : Nat)
    (h : job.readyAt = none ∨ ∃ r, job.readyAt = some r ∧ tmo + 1 < r) :
    wait_for_celery_task job tmo = .error .timeoutError := by
  have hnr : ∀ s, s ≤ tmo + 1 → job.ready s = false := by
    intro s hs
    unfold CeleryJob.ready
    rcases h with hnone | ⟨r, hr, hlt⟩
    · rw [hnone]
    · rw [hr]
      simp only [decide_eq_false_iff_not]
      omega
  unfold wait_for_celery_task
  rw [waitPollAux_timeout job.ready tmo hnr (tmo + 2) 0 (by omega)]

/-- A skipped engine (attempt = none) leaves the loop result that of the
remaining engines and prepends its name to the trace. -/
theorem pwfr_skip (fp : String) (tmo : Nat) (p : Processor) (rest : List Processor)
    (h : attempt fp tmo p = none) :
    process_with_fallbacks_run fp tmo (p :: rest)
      = ((process_with_fallbacks_run fp tmo rest).1,
         p.name :: (process_with_fallbacks_run fp tmo rest).2) := by
  simp [process_with_fallbacks_run, h]

/-- An accepted engine ends the loop at once with its response. -/
theorem pwfr_accept (fp : String) (tmo : Nat) (p : Processor) (rest : List Processor)
    (resp : EnginePayload) (h : attempt fp tmo p = some resp) :
    process_with_fallbacks_run fp tmo (p :: rest) = (resp, [p.name]) := by
  simp [process_with_fallbacks_run, h]

/-- When every engine of the list is skipped, the loop visits all of them
in order and returns the empty sentinel. -/
theorem pwfr_all_none (fp : String) (tmo : Nat) :
    ∀ ps : List Processor, (∀ p ∈ ps, attempt fp tmo p = none) →
      process_with_fallbacks_run fp tmo ps
        = ((PDFTextResponse.mk fp "" []).to_dict, ps.map (fun p => p.name)) := by
  intro ps
  induction ps with
  | nil => intro _; rfl
  | cons p rest ih =>
    intro h
    have hp : attempt fp tmo p = none := h p (by simp)
    have hr := ih (fun q hq => h q (by simp [hq]))
    simp [process_with_fallbacks_run, hp, hr]

/-- The head of a dropWhile result never satisfies the predicate. -/
theorem head_dropWhile_false {α : Type} (p : α → Bool) :
    ∀ (l : List α) (x : α), (l.dropWhile p).head? = some x → p x = false := by
  intro l
  induction l with
  | nil => intro x h; cases h
  | cons a t ih =>
    intro x h
    by_cases hp : p a
    · rw [List.dropWhile_cons, if_pos hp] at h
      exact ih x h
    · rw [List.dropWhile_cons, if_neg hp] at h
      simp only [List.head?_cons, Option.some.injEq] at h
      rw [← h]
      exact Bool.eq_false_iff.mpr hp

/-- dropWhile is the identity on a list whose head does not satisfy the
predicate. -/
theorem dropWhile_of_head_false {α : Type} (p : α → Bool) (l : List α)
    (h : ∀ x, l.head? = some x → p x = false) : l.dropWhile p = l := by
  cases l with
  | nil => rfl
  | cons a t => simp [List.dropWhile_cons, h a rfl]

/-- pyStrip is idempotent: a stripped string strips to itself. -/
theorem pyStrip_idem (s : String) : pyStrip (pyStrip s) = pyStrip s := by
  unfold pyStrip
  congr 1
  set d1 := s.data.dropWhile Char.isWhitespace with hd1
  set d2 := d1.reverse.dropWhile Char.isWhitespace with hd2
  have hA : d2.reverse.dropWhile Char.isWhitespace = d2.reverse := by
    apply dropWhile_of_head_false
    intro x hx
    have hsplit : d1.reverse.takeWhile Char.isWhitespace ++ d2 = d1.reverse := by
      rw [hd2]
      exact List.takeWhile_append_dropWhile Char.isWhitespace d1.reverse
    have hd : d1 = d2.reverse ++ (d1.reverse.takeWhile Char.isWhitespace).reverse := by
      have h2 := congrArg List.reverse hsplit
      simpa [List.reverse_append] using h2.symm
    cases hrev : d2.reverse with
    | nil => rw [hrev] at hx; cases hx
    | cons a t =>
      rw [hrev] at hx
      simp only [List.head?_cons, Option.some.injEq] at hx
      have hhead : d1.head? = some a := by rw [hd, hrev]; rfl
      rw [← hx]
      exact head_dropWhile_false Char.isWhitespace s.data a (by rw [← hd1]; exact hhead)
  rw [hA, List.reverse_reverse]
  congr 1
  apply dropWhile_of_head_false
  intro x hx
  exact head_dropWhile_false Char.isWhitespace d1.reverse x (by rw [← hd2]; exact hx)

/-! ## Claim theorems -/

/-- C1: the claim says the controller accepts the first non-empty
parallel result and never invokes a sequential-tier engine.  The code
does not: _process_pdf awaits each parallel engine one at a time,
discards every parallel result (the bare list comprehension,
pdf_tasks.py line 167), then always runs the sequential tier and returns
its result.  At the concrete scenario of spec section 8 (fastEngine
parallel with 2 blocks, layoutEngine parallel raising, cloudOCR
sequential with 5 blocks) the returned document is built from cloudOCR,
although fastEngine produced an accepted-able non-empty result. -/
theorem C1_parallel_result_discarded :
    _process_pdf "/tmp/doc.pdf" 3 [fastEngine, layoutEngine, cloudOCR] = cloudResp.to_dict
    ∧ attempt "/tmp/doc.pdf" 3 fastEngine = some fastResp.to_dict
    ∧ cloudResp.to_dict ≠ fastResp.to_dict := by
  decide

/-- C2: when every candidate engine fails, times out or returns an empty
result (attempt = none for each table entry), the entry point process_pdf
returns the empty sentinel with text = "" and no bounding boxes, and,
being a total function into EnginePayload whose except clause absorbs
every raised error, it propagates no exception. -/
theorem C2_total_exhaustion (temp_path : String) (timeout : Nat) (table : List Processor)
    (h : ∀ p ∈ table, attempt temp_path timeout p = none) :
    process_pdf temp_path timeout table = (PDFTextResponse.mk temp_path "" []).to_dict := by
  rcases hc : (table.filter (fun p => p.importable && p.callable)).filter (fun p => !p.parallel)
    with _ | ⟨q, qs⟩
  · have hbody : _process_pdf_body temp_path timeout table = .error .unboundLocal := by
      simp only [_process_pdf_body]
      rw [hc]
    have hpdf : _process_pdf temp_path timeout table = (PDFTextResponse.mk "" "" []).to_dict := by
      unfold _process_pdf
      rw [hbody]
    unfold process_pdf process_pdf_body
    rw [hpdf]
    rfl
  · have hnone : ∀ p ∈ q :: qs, attempt temp_path timeout p = none := by
      intro p hp
      rw [← hc] at hp
      exact h p (List.mem_of_mem_filter (List.mem_of_mem_filter hp))
    have hall := pwfr_all_none temp_path timeout (q :: qs) hnone
    have hbody : _process_pdf_body temp_path timeout table
        = .ok ((PDFTextResponse.mk temp_path "" []).to_dict) := by
      simp only [_process_pdf_body]
      rw [hc]
      unfold process_with_fallbacks
      show Except.ok (process_with_fallbacks_run temp_path timeout (q :: qs)).1
        = Except.ok ((PDFTextResponse.mk temp_path "" []).to_dict)
      rw [hall]
    have hpdf : _process_pdf temp_path timeout table
        = (PDFTextResponse.mk temp_path "" []).to_dict := by
      unfold _process_pdf
      rw [hbody]
    unfold process_pdf process_pdf_body
    rw [hpdf]
    rfl

/-- Witness for C2: a failing engine followed by an empty-returning
engine exhaust the table and the entry point returns the empty sentinel. -/
theorem C2_total_exhaustion_witness :
    process_pdf "/tmp/doc.pdf" 3 [failEngine, emptyEngine]
      = (PDFTextResponse.mk "/tmp/doc.pdf" "" []).to_dict :=
  C2_total_exhaustion "/tmp/doc.pdf" 3 [failEngine, emptyEngine] (by decide)

/-- C10: when every loaded descriptor is marked parallel the sequential
list is empty, the local variable response of _process_pdf is never
assigned, reading it raises UnboundLocalError, and the catch-all except
clause returns the sentinel with file_name = "" — whatever any parallel
engine produced (the table, and with it every engine behaviour, is
universally quantified). -/
theorem C10_all_parallel_sentinel (temp_path : String) (timeout : Nat)
    (table : List Processor) (h : ∀ p ∈ table, p.parallel = true) :
    _process_pdf_body temp_path timeout table = .error .unboundLocal
    ∧ _process_pdf temp_path timeout table = (PDFTextResponse.mk "" "" []).to_dict := by
  have hseq : (table.filter (fun p => p.importable && p.callable)).filter
      (fun p => !p.parallel) = [] := by
    apply List.filter_eq_nil_iff.mpr
    intro p hp
    have hpar := h p (List.mem_of_mem_filter hp)
    simp [hpar]
  have hbody : _process_pdf_body temp_path timeout table = .error .unboundLocal := by
    simp only [_process_pdf_body]
    rw [hseq]
  refine ⟨hbody, ?_⟩
  unfold _process_pdf
  rw [hbody]

/-- Witness for C10: with the two parallel engines of the concrete
scenario (one of them producing a non-empty result) the controller still
returns the catch-all sentinel with empty file name. -/
theorem C10_all_parallel_sentinel_witness :
    _process_pdf_body "/tmp/doc.pdf" 3 [fastEngine, layoutEngine] = .error .unboundLocal
    ∧ _process_pdf "/tmp/doc.pdf" 3 [fastEngine, layoutEngine]
        = (PDFTextResponse.mk "" "" []).to_dict :=
  C10_all_parallel_sentinel "/tmp/doc.pdf" 3 [fastEngine, layoutEngine] (by decide)

/-- C3: the sequential loop attempts engines strictly in table order.
When p is the first processor of the list whose attempt is accepted
(find? over acceptance), the loop returns exactly that accepted response,
and the visited-engine trace is the names of the rejected prefix followed
by p: every earlier engine was attempted before p (and its outcome known,
since the loop awaits each attempt before moving on), and no engine after
p is ever attempted. -/
theorem C3_sequential_order (fp : String) (tmo : Nat) (ps : List Processor) (p : Processor)
    (hfind : ps.find? (fun q => (attempt fp tmo q).isSome) = some p) :
    ∃ r, attempt fp tmo p = some r
      ∧ process_with_fallbacks fp tmo ps = r
      ∧ (process_with_fallbacks_run fp tmo ps).2
          = (ps.takeWhile (fun q => (attempt fp tmo q).isNone)).map (fun q => q.name)
            ++ [p.name] := by
  induction ps with
  | nil => cases hfind
  | cons q rest ih =>
    by_cases hq : (attempt fp tmo q).isSome
    · rw [List.find?_cons_of_pos rest hq] at hfind
      cases hfind
      obtain ⟨r, hr⟩ := Option.isSome_iff_exists.mp hq
      refine ⟨r, hr, ?_, ?_⟩
      · unfold process_with_fallbacks
        rw [pwfr_accept fp tmo p rest r hr]
      · rw [pwfr_accept fp tmo p rest r hr]
        rw [List.takeWhile_cons_of_neg]
        · simp
        · simp [hr]
    · rw [List.find?_cons_of_neg rest hq] at hfind
      obtain ⟨r, h1, h2, h3⟩ := ih hfind
      have hnone : attempt fp tmo q = none := Option.not_isSome_iff_eq_none.mp hq
      refine ⟨r, h1, ?_, ?_⟩
      · unfold process_with_fallbacks
        rw [pwfr_skip fp tmo q rest hnone]
        exact h2
      · rw [pwfr_skip fp tmo q rest hnone]
        rw [List.takeWhile_cons_of_pos]
        · simpa using h3
        · simp [hnone]

/-- Witness for C3: with a raising engine, then an empty-returning
engine, then a succeeding engine, the loop accepts the third engine after
visiting the first two in order. -/
theorem C3_sequential_order_witness :
    ∃ r, attempt "/tmp/doc.pdf" 3 okEngine = some r
      ∧ process_with_fallbacks "/tmp/doc.pdf" 3 [failEngine, emptyEngine, okEngine] = r
      ∧ (process_with_fallbacks_run "/tmp/doc.pdf" 3 [failEngine, emptyEngine, okEngine]).2
          = (([failEngine, emptyEngine, okEngine].takeWhile
              (fun q => (attempt "/tmp/doc.pdf" 3 q).isNone)).map (fun q => q.name))
            ++ [okEngine.name] :=
  C3_sequential_order "/tmp/doc.pdf" 3 [failEngine, emptyEngine, okEngine] okEngine rfl

/-- C4: an engine whose job completes successfully but yields zero
bounding boxes is not accepted (attempt = none), exactly like a raised
failure, and the loop result over the remaining engines is untouched: the
controller proceeds to the next engine of the fallback sequence. -/
theorem C4_empty_result_fallback (fp : String) (tmo : Nat) (p : Processor)
    (resp : PDFTextResponse) (rest : List Processor)
    (hw : wait_for_celery_task (p.job fp) tmo = .ok resp.to_dict)
    (hb : resp.bounding_boxes = []) :
    attempt fp tmo p = none
    ∧ process_with_fallbacks_run fp tmo (p :: rest)
        = ((process_with_fallbacks_run fp tmo rest).1,
           p.name :: (process_with_fallbacks_run fp tmo rest).2) := by
  have ha : attempt fp tmo p = none := by
    unfold attempt
    by_cases hc : p.callable
    · simp [hc, hw, getItem_bounding_boxes, PDFTextResponse.to_dict, hb]
    · simp [hc]
  exact ⟨ha, pwfr_skip fp tmo p rest ha⟩

/-- Witness for C4: the empty-returning engine is skipped and the loop
falls through to the succeeding engine behind it. -/
theorem C4_empty_result_fallback_witness :
    attempt "/tmp/doc.pdf" 3 emptyEngine = none
    ∧ process_with_fallbacks_run "/tmp/doc.pdf" 3 [emptyEngine, okEngine]
        = ((process_with_fallbacks_run "/tmp/doc.pdf" 3 [okEngine]).1,
           emptyEngine.name :: (process_with_fallbacks_run "/tmp/doc.pdf" 3 [okEngine]).2) :=
  C4_empty_result_fallback "/tmp/doc.pdf" 3 emptyEngine
    (PDFTextResponse.mk "/tmp/doc.pdf" "" []) [okEngine] (by decide) rfl

/-- C5: a job that does not become ready within the timeout budget (it
never resolves, or resolves only after poll tick timeout + 1) makes
wait_for_celery_task raise TimeoutError — the poll loop checks readiness
at 1-second ticks and stops on its own at tick timeout + 1, without the
job being killed (the job outcome is untouched) — and the controller
skips the engine and proceeds to the next candidate. -/
theorem C5_timeout_fallback (fp : String) (tmo : Nat) (p : Processor) (rest : List Processor)
    (h : (p.job fp).readyAt = none ∨ ∃ r, (p.job fp).readyAt = some r ∧ tmo + 1 < r) :
    wait_for_celery_task (p.job fp) tmo = .error .timeoutError
    ∧ process_with_fallbacks_run fp tmo (p :: rest)
        = ((process_with_fallbacks_run fp tmo rest).1,
           p.name :: (process_with_fallbacks_run fp tmo rest).2) := by
  have hw := wait_timeout (p.job fp) tmo h
  have ha : attempt fp tmo p = none := by
    unfold attempt
    by_cases hc : p.callable <;> simp [hc, hw]
  exact ⟨hw, pwfr_skip fp tmo p rest ha⟩

/-- Witness for C5: the never-resolving engine times out and the loop
falls through to the succeeding engine behind it. -/
theorem C5_timeout_fallback_witness :
    wait_for_celery_task (hangEngine.job "/tmp/doc.pdf") 3 = .error .timeoutError
    ∧ process_with_fallbacks_run "/tmp/doc.pdf" 3 [hangEngine, okEngine]
        = ((process_with_fallbacks_run "/tmp/doc.pdf" 3 [okEngine]).1,
           hangEngine.name :: (process_with_fallbacks_run "/tmp/doc.pdf" 3 [okEngine]).2) :=
  C5_timeout_fallback "/tmp/doc.pdf" 3 hangEngine [okEngine] (Or.inl rfl)

/-- C6 counterexample: the claim says the normalized file name is the
base name of the input document path.  The adapters store the full input
path: for /tmp/a.pdf the PyMuPDF result carries file_name = /tmp/a.pdf,
while the base name is a.pdf. -/
theorem C6_counterexample :
    (_usePyMuPDF "/tmp/a.pdf"
        [[{ btype := 0, x0 := 0, y0 := 0, x1 := 4, y1 := 5,
            lines := [{ text := "hi" }] }]]).file_name = "/tmp/a.pdf"
    ∧ specBaseName "/tmp/a.pdf" = "a.pdf"
    ∧ ("/tmp/a.pdf" : String) ≠ "a.pdf" := by
  decide

/-- C6 as amended: for every input, the normalized response of the
PyMuPDF and the tesseract adapter has text equal to the block texts
joined with newline separators in extraction order, and file_name equal
to the full input document path (not its base name). -/
theorem C6_text_join_full_path (fp : String) (doc : List (List FitzBlock))
    (images : List (Option (List OcrToken))) :
    ((_usePyMuPDF fp doc).text
        = String.intercalate "\n" (((_usePyMuPDF fp doc).bounding_boxes).map (fun b => b.text))
      ∧ (_usePyMuPDF fp doc).file_name = fp)
    ∧ ((_useTesseract fp images).text
        = String.intercalate "\n"
            (((_useTesseract fp images).bounding_boxes).map (fun b => b.text))
      ∧ (_useTesseract fp images).file_name = fp) :=
  ⟨⟨rfl, rfl⟩, ⟨rfl, rfl⟩⟩

/-- C7 counterexample: the claim says every returned result with
non-empty blocks has only non-blank block texts.  The PyMuPDF adapter
strips each block text but never drops blank blocks: a document with a
whitespace-only text block yields a non-empty block list containing a
block whose text trims to empty. -/
theorem C7_counterexample :
    (_usePyMuPDF "/tmp/a.pdf" blankBlockDoc).bounding_boxes ≠ []
    ∧ ¬ (∀ b ∈ (_usePyMuPDF "/tmp/a.pdf" blankBlockDoc).bounding_boxes,
          ¬ pyStrip b.text = "") := by
  decide

/-- C7 as amended: the tesseract OCR adapter does strip blank tokens —
every bounding box of a tesseract result has non-blank text (its text
trims to a non-empty string); the PyMuPDF adapter only trims block texts
and retains blank blocks, as the counterexample shows. -/
theorem C7_tesseract_blocks_nonblank (fp : String)
    (images : List (Option (List OcrToken))) :
    ((_useTesseract fp images).bounding_boxes).all
      (fun b => !(pyStrip b.text == "")) = true := by
  rw [List.all_eq_true]
  intro b hb
  have hb2 : b ∈ (images.map extract_text_and_boxes).flatten := hb
  obtain ⟨l, hl, hbl⟩ := List.mem_flatten.mp hb2
  obtain ⟨img, _, rfl⟩ := List.mem_map.mp hl
  cases img with
  | none => cases hbl
  | some d =>
    unfold extract_text_and_boxes at hbl
    obtain ⟨t, ht, rfl⟩ := List.mem_map.mp hbl
    have hcond := List.of_mem_filter ht
    simp only [Bool.and_eq_true, decide_eq_true_eq, Bool.not_eq_true', beq_eq_false_iff_ne]
      at hcond
    simp only [ocr_box, pyStrip_idem]
    simpa using hcond.2

/-- C8: the tesseract token filter.  A token is excluded exactly when its
confidence is below the cutoff (the source keeps integer confidences
strictly greater than 60, that is at least confCutoff = 61) or its text
trims to empty; every kept token becomes a bounding box carrying its
per-token confidence unchanged. -/
theorem C8_ocr_token_filter (d : List OcrToken) :
    extract_text_and_boxes (some d)
      = (d.filter (fun t =>
            !(decide (t.conf < confCutoff) || decide (pyStrip t.text = "")))).map ocr_box
    ∧ ∀ t : OcrToken, (ocr_box t).confidence = t.conf := by
  constructor
  · unfold extract_text_and_boxes
    show (d.filter (fun t => decide (60 < t.conf) && !(pyStrip t.text == ""))).map ocr_box
      = (d.filter (fun t =>
          !(decide (t.conf < confCutoff) || decide (pyStrip t.text = "")))).map ocr_box
    congr 1
    apply List.filter_congr
    intro t _
    rcases lt_or_le 60 t.conf with h1 | h1
    · have h1a : ¬ (t.conf < confCutoff) := by
        unfold confCutoff
        omega
      by_cases h2 : pyStrip t.text = "" <;> simp [h1, h1a, h2]
    · have h1b : t.conf < confCutoff := by
        unfold confCutoff
        omega
      have h1c : ¬ (60 < t.conf) := by omega
      simp [h1c, h1b]
  · intro t
    rfl

/-- C9: the textract adapter hands the controller a LIST of response
dicts (or the empty list on internal failure), never a single response
dict; the controller acceptance check response["bounding_boxes"] raises
TypeError on a list, the error is absorbed like any engine failure, and
the fallback loop never returns a textract payload: the loop over the
remaining engines is unaffected. -/
theorem C9_textract_never_accepted (fp s3 : String)
    (svc : Except PyError (List TextractResult)) (p : Processor)
    (rest : List Processor) (tmo : Nat)
    (hw : wait_for_celery_task (p.job fp) tmo = .ok (_useTextract fp s3 svc)) :
    (∃ l, _useTextract fp s3 svc = .list l)
    ∧ getItem_bounding_boxes (_useTextract fp s3 svc) = .error .typeError
    ∧ attempt fp tmo p = none
    ∧ process_with_fallbacks fp tmo (p :: rest) = process_with_fallbacks fp tmo rest := by
  have hlist : ∃ l, _useTextract fp s3 svc = .list l := by
    unfold _useTextract
    cases svc with
    | ok results => exact ⟨_, rfl⟩
    | error e => exact ⟨[], rfl⟩
  obtain ⟨l, hl⟩ := hlist
  have hget : getItem_bounding_boxes (_useTextract fp s3 svc) = .error .typeError := by
    rw [hl]
    rfl
  have ha : attempt fp tmo p = none := by
    unfold attempt
    by_cases hc : p.callable <;> simp [hc, hw, hget]
  refine ⟨⟨l, hl⟩, hget, ha, ?_⟩
  unfold process_with_fallbacks
  rw [pwfr_skip fp tmo p rest ha]

/-- Witness for C9: a sequential engine backed by a successful textract
run (one LINE block, so a genuinely non-empty extraction) is still never
accepted, and the loop behaves as if the engine were absent. -/
theorem C9_textract_never_accepted_witness :
    (∃ l, _useTextract "/tmp/doc.pdf" "123_doc.pdf" textractSvc = .list l)
    ∧ getItem_bounding_boxes (_useTextract "/tmp/doc.pdf" "123_doc.pdf" textractSvc)
        = .error .typeError
    ∧ attempt "/tmp/doc.pdf" 3 textractEngine = none
    ∧ process_with_fallbacks "/tmp/doc.pdf" 3 [textractEngine, okEngine]
        = process_with_fallbacks "/tmp/doc.pdf" 3 [okEngine] :=
  C9_textract_never_accepted "/tmp/doc.pdf" "123_doc.pdf" textractSvc
    textractEngine [okEngine] 3 rfl

end DocAnalyze
